import Mathlib

/-!
Verification of the barcode-scanner identifier codec and the scan-session
lifecycle of the book-barcode-scanner repository.

The pure codec (`extractISBN`, `convertISBN10to13`, `validateISBN13`,
`validateISBN10`) is embedded from `src/frontend/js/scanner.js`; the two
scanner variants in `src/unnamed/part_001` and the BookAPI converter in
`src/unnamed/part_003` are embedded separately for the equivalence claims.
The ZXing scan-session lifecycle (`startScanning`, `stopScanning`,
`handleScanResult`) is embedded as a state machine over an explicit state
record, with environment outcomes (device enumeration results, decode
success or failure) passed as parameters.
-/

/-! ## Character helpers (JS semantics) -/

/-- Numeric value of a digit character, as `parseInt` returns on `'0'`–`'9'`. -/
def digitVal (c : Char) : Nat := c.toNat - '0'.toNat

/-- `parseInt` applied to a single character: a digit yields its value,
anything else yields NaN, modelled as `none`. -/
def parseDigit (c : Char) : Option Nat :=
  if c.isDigit then some (digitVal c) else none

/-- The character a single decimal digit prints as when concatenated onto a
string in JS (`isbn13_prefix + checkDigit` with `0 ≤ checkDigit ≤ 9`). -/
def digitChar (n : Nat) : Char := Char.ofNat ('0'.toNat + n)

/-- The character class `\s` of JS regular expressions:
space, tab, line feed, vertical tab, form feed, carriage return, NBSP,
Ogham space mark, the U+2000–U+200A range, line/paragraph separators,
narrow no-break space, medium mathematical space, ideographic space, BOM. -/
def isJsSpace (c : Char) : Bool :=
  c == ' ' || c == '\t' || c == '\n' || decide (c.toNat = 0x0b) ||
  decide (c.toNat = 0x0c) || c == '\r' || decide (c.toNat = 0xa0) ||
  decide (c.toNat = 0x1680) ||
  (decide (0x2000 ≤ c.toNat) && decide (c.toNat ≤ 0x200a)) ||
  decide (c.toNat = 0x2028) || decide (c.toNat = 0x2029) ||
  decide (c.toNat = 0x202f) || decide (c.toNat = 0x205f) ||
  decide (c.toNat = 0x3000) || decide (c.toNat = 0xfeff)

/-- `text.replace(/[-\s]/g, '')`: delete every hyphen and whitespace char. -/
def cleanText (s : String) : String :=
  String.mk (s.data.filter (fun c => !(c == '-' || isJsSpace c)))

/-! ## Shape tests (the regular expressions of scanner.js) -/

/-- `/^97[89]\d{10}$/.test s`: "97", then "8" or "9", then ten digits. -/
def isBookland13 (l : List Char) : Bool :=
  match l with
  | a :: b :: c :: rest =>
      a == '9' && b == '7' && (c == '8' || c == '9') &&
      decide (rest.length = 10) && rest.all Char.isDigit
  | _ => false

/-- Last character accepted by `[\dX]`: a digit or uppercase X. -/
def isDigitOrX (c : Char) : Bool := c.isDigit || c == 'X'

/-- `/^\d{9}[\dX]$/.test s`: nine digits then a digit or "X" (length 10). -/
def isbn10Shape (l : List Char) : Bool :=
  decide (l.length = 10) && (l.take 9).all Char.isDigit &&
  isDigitOrX (l.getD 9 ' ')

/-- `/^\d{13}$/.test s`: exactly thirteen digits. -/
def allDigits13 (l : List Char) : Bool :=
  decide (l.length = 13) && l.all Char.isDigit

/-! ## EAN-13 checksum (the i = 0..11 loop of scanner.js) -/

/-- The loop `for i in 0..11: sum += (i % 2 == 0) ? d : d * 3`, written as a
recursion carrying the index `i`. The callers apply it to a list that holds
exactly the twelve characters the JS loop reads. -/
def ean13Sum : List Char → Nat → Nat
  | [], _ => 0
  | c :: rest, i =>
      (if i % 2 = 0 then digitVal c else digitVal c * 3) + ean13Sum rest (i + 1)

/-- `checkDigit = (10 - (sum % 10)) % 10` over the twelve given characters. -/
def ean13Check (l : List Char) : Nat := (10 - ean13Sum l 0 % 10) % 10

/-! ## The codec of src/frontend/js/scanner.js -/

/-- `convertISBN10to13`: take the first nine characters, prepend "978",
append the recomputed EAN-13 check digit. For ISBN-10-shaped input the
prefix has exactly twelve characters, so summing the whole prefix is the
JS loop `i = 0..11`. -/
def convertISBN10to13 (isbn10 : String) : String :=
  let body12 := '9' :: '7' :: '8' :: isbn10.data.take 9
  String.mk (body12 ++ [digitChar (ean13Check body12)])

/-- `validateISBN13`: thirteen digits whose last digit equals the check
digit recomputed over the first twelve. The regex guard guarantees that
character 12 is a digit, so `parseInt(isbn13[12])` is its digit value. -/
def validateISBN13 (isbn13 : String) : Bool :=
  let l := isbn13.data
  allDigits13 l &&
    decide (ean13Check (l.take 12) = digitVal (l.getD 12 ' '))

/-- `validateISBN10` weighted sum `Σ digit(i) * (10 - i)` over `i = 0..8`,
written as a recursion carrying the index. Applied to `l.take 9`. -/
def isbn10Sum : List Char → Nat → Nat
  | [], _ => 0
  | c :: rest, i => digitVal c * (10 - i) + isbn10Sum rest (i + 1)

/-- `validateISBN10`: shape check, then
`(checkDigit == 10 && last == 'X') || (checkDigit < 10 && parseInt(last) == checkDigit)`;
`parseInt('X')` is NaN, modelled by `parseDigit` returning `none`. -/
def validateISBN10 (isbn10 : String) : Bool :=
  let l := isbn10.data
  if isbn10Shape l then
    let sum := isbn10Sum (l.take 9) 0
    let remainder := sum % 11
    let checkDigit := if remainder = 0 then 0 else 11 - remainder
    let lastChar := l.getD 9 ' '
    (decide (checkDigit = 10) && (lastChar == 'X')) ||
      (decide (checkDigit < 10) && (parseDigit lastChar == some checkDigit))
  else false

/-- `extractISBN`: strip hyphens/whitespace, then try the ISBN-13 regex,
the ISBN-10 regex (converting on match), and finally the EAN-13 test
`/^\d{13}$/` combined with `startsWith('978') || startsWith('979')`
(modelled as the first three characters of the cleaned list). -/
def extractISBN (text : String) : Option String :=
  let cleaned := cleanText text
  let l := cleaned.data
  if isBookland13 l then some cleaned
  else if isbn10Shape l then some (convertISBN10to13 cleaned)
  else if allDigits13 l &&
      (l.take 3 == ['9', '7', '8'] || l.take 3 == ['9', '7', '9']) then
    some cleaned
  else none

/-! ## Claim-side formulations (from the spec's words, for comparison) -/

/-- Spec-side classifier for the first extraction branch: "exactly 13
digits beginning with 978 or 979". -/
def bookland13Claim (l : List Char) : Bool :=
  decide (l.length = 13) && l.all Char.isDigit &&
    (l.take 3 == ['9', '7', '8'] || l.take 3 == ['9', '7', '9'])

/-- Spec-side ISBN-13 validity: thirteen digits, and the check digit
recomputed over digits 0–11 (weight 1 at even 0-based index, 3 at odd,
check digit `(10 - sum % 10) % 10`) equals digit 12. The sum is stated
declaratively over the index-annotated list. -/
def validate13Claim (s : String) : Prop :=
  let l := s.data
  l.length = 13 ∧ (∀ c ∈ l, c.isDigit) ∧
    (10 - (((l.take 12).enumFrom 0).map
        (fun p => (if p.1 % 2 = 0 then 1 else 3) * digitVal p.2)).sum % 10) % 10
      = digitVal (l.getD 12 ' ')

/-- Spec-side ISBN-10 validity: nine digits then a digit or "X"; with
`sum = Σ digit(i) * (10 - i)` over `i = 0..8`, `remainder = sum % 11`,
`expected = 0` if the remainder is 0 and `11 - remainder` otherwise,
either `expected = 10` and the last character is "X", or `expected < 10`
and the last character is a digit of value `expected`. -/
def validate10Claim (s : String) : Prop :=
  let l := s.data
  let last := l.getD 9 ' '
  let sum := (((l.take 9).enumFrom 0).map
      (fun p => digitVal p.2 * (10 - p.1))).sum
  let remainder := sum % 11
  let expected := if remainder = 0 then 0 else 11 - remainder
  (l.length = 10 ∧ (∀ c ∈ l.take 9, c.isDigit) ∧ (last = 'X' ∨ last.isDigit)) ∧
    ((expected = 10 ∧ last = 'X') ∨
      (expected < 10 ∧ last.isDigit ∧ digitVal last = expected))

/-! ## The Quagga scanner variant (src/unnamed/part_001, first class) -/

/-- `convertISBN10to13` of the Quagga variant (textually identical body). -/
def convertISBN10to13Quagga (isbn10 : String) : String :=
  let body12 := '9' :: '7' :: '8' :: isbn10.data.take 9
  String.mk (body12 ++ [digitChar (ean13Check body12)])

/-- `extractISBN` of the Quagga variant (textually identical body, calling
the variant's own converter). -/
def extractISBNQuagga (text : String) : Option String :=
  let cleaned := cleanText text
  let l := cleaned.data
  if isBookland13 l then some cleaned
  else if isbn10Shape l then some (convertISBN10to13Quagga cleaned)
  else if allDigits13 l &&
      (l.take 3 == ['9', '7', '8'] || l.take 3 == ['9', '7', '9']) then
    some cleaned
  else none

/-- `validateISBN13` of the Quagga variant. -/
def validateISBN13Quagga (isbn13 : String) : Bool :=
  let l := isbn13.data
  allDigits13 l &&
    decide (ean13Check (l.take 12) = digitVal (l.getD 12 ' '))

/-- `validateISBN10` of the Quagga variant. -/
def validateISBN10Quagga (isbn10 : String) : Bool :=
  let l := isbn10.data
  if isbn10Shape l then
    let sum := isbn10Sum (l.take 9) 0
    let remainder := sum % 11
    let checkDigit := if remainder = 0 then 0 else 11 - remainder
    let lastChar := l.getD 9 ' '
    (decide (checkDigit = 10) && (lastChar == 'X')) ||
      (decide (checkDigit < 10) && (parseDigit lastChar == some checkDigit))
  else false

/-! ## The ZXing scanner variant (src/unnamed/part_001, second class) -/

/-- `convertISBN10to13` of the ZXing variant. -/
def convertISBN10to13ZXing (isbn10 : String) : String :=
  let body12 := '9' :: '7' :: '8' :: isbn10.data.take 9
  String.mk (body12 ++ [digitChar (ean13Check body12)])

/-- `extractISBN` of the ZXing variant. -/
def extractISBNZXing (text : String) : Option String :=
  let cleaned := cleanText text
  let l := cleaned.data
  if isBookland13 l then some cleaned
  else if isbn10Shape l then some (convertISBN10to13ZXing cleaned)
  else if allDigits13 l &&
      (l.take 3 == ['9', '7', '8'] || l.take 3 == ['9', '7', '9']) then
    some cleaned
  else none

/-- `validateISBN13` of the ZXing variant. -/
def validateISBN13ZXing (isbn13 : String) : Bool :=
  let l := isbn13.data
  allDigits13 l &&
    decide (ean13Check (l.take 12) = digitVal (l.getD 12 ' '))

/-- `validateISBN10` of the ZXing variant. -/
def validateISBN10ZXing (isbn10 : String) : Bool :=
  let l := isbn10.data
  if isbn10Shape l then
    let sum := isbn10Sum (l.take 9) 0
    let remainder := sum % 11
    let checkDigit := if remainder = 0 then 0 else 11 - remainder
    let lastChar := l.getD 9 ' '
    (decide (checkDigit = 10) && (lastChar == 'X')) ||
      (decide (checkDigit < 10) && (parseDigit lastChar == some checkDigit))
  else false

/-- `convertISBN10to13` of BookAPI (src/unnamed/part_003). -/
def convertISBN10to13BookAPI (isbn10 : String) : String :=
  let body12 := '9' :: '7' :: '8' :: isbn10.data.take 9
  String.mk (body12 ++ [digitChar (ean13Check body12)])

/-! ## The ZXing scan-session lifecycle (src/unnamed/part_001, second class)

The mutable fields of the `BarcodeScanner` instance, plus the video
element's `srcObject`, form the state. Handles are modelled by whether
they are set (`this.codeReader` non-null, `video.srcObject` non-null). -/

/-- Session state of the ZXing scanner variant. -/
structure ScanState where
  isScanning : Bool
  codeReader : Bool
  videoSrcObject : Bool
deriving DecidableEq

/-- Which of the two optional callbacks the caller has registered. -/
structure Callbacks where
  onScanSuccess : Bool
  onScanError : Bool
deriving DecidableEq

/-- A JS error as handleScanResult inspects it: only its `name` property
matters; `none` models an undefined `name`. -/
structure JsError where
  name : Option String
deriving DecidableEq

/-- `!error.name` — a missing or empty name is falsy. -/
def jsNameFalsy : Option String → Bool
  | none => true
  | some n => n == ""

/-- The guard `!error.name || error.name !== 'NotFoundException'` deciding
whether `onScanError` is dispatched. -/
def dispatchError (e : JsError) : Bool :=
  jsNameFalsy e.name || !(e.name == some "NotFoundException")

/-- `handleScanResult(result, error)`: returns the argument passed to
`onScanSuccess` (if invoked) and the argument passed to `onScanError`
(if invoked). The result branch is guarded by `this.isScanning`; the
error branch is guarded only by registration and the NotFoundException
filter. The method mutates no state. -/
def handleScanResult (s : ScanState) (cb : Callbacks)
    (result : Option String) (error : Option JsError) :
    Option String × Option JsError :=
  let successCall :=
    match result with
    | some text =>
        if s.isScanning then
          match extractISBNZXing text with
          | some isbn => if cb.onScanSuccess then some isbn else none
          | none => none
        else none
    | none => none
  let errorCall :=
    match error with
    | some e =>
        if cb.onScanError then
          if dispatchError e then some e else none
        else none
    | none => none
  (successCall, errorCall)

/-- `stopScanning()`: clear `isScanning`, reset and null the code reader
if present, stop the tracks and null `video.srcObject` if present. -/
def stopScanning (s : ScanState) : ScanState :=
  let s1 : ScanState := { s with isScanning := false }
  let s2 : ScanState :=
    if s1.codeReader then { s1 with codeReader := false } else s1
  if s2.videoSrcObject then { s2 with videoSrcObject := false } else s2

/-- Environment outcome of one `startScanning()` call. -/
inductive StartOutcome where
  /-- `listVideoInputDevices` resolves with a nonempty list and
  `decodeFromVideoDevice` starts (the engine attaches the stream). -/
  | devicesOk
  /-- enumeration throws or finds no device; the fallback
  `decodeFromVideoDevice(undefined, ...)` starts. -/
  | enumFallback
  /-- `decodeFromVideoDevice` throws; the outer catch clears `isScanning`
  and rethrows, leaving `this.codeReader` set. -/
  | startFailed
deriving DecidableEq

/-- `startScanning()`: assigns `this.codeReader = new ...` first, then
`this.isScanning = true`, then starts decoding; on the failing outcome the
catch block sets `isScanning = false` and propagates the error (the
returned Bool is `true` iff the call rejects). There is no check of
`isScanning` anywhere in the method. -/
def startScanning (s : ScanState) (o : StartOutcome) : ScanState × Bool :=
  let s1 : ScanState := { s with codeReader := true }
  let s2 : ScanState := { s1 with isScanning := true }
  match o with
  | .devicesOk => ({ s2 with videoSrcObject := true }, false)
  | .enumFallback => ({ s2 with videoSrcObject := true }, false)
  | .startFailed => ({ s2 with isScanning := false }, true)

/-- States reachable from the freshly constructed scanner by any sequence
of `startScanning` (any environment outcome) and `stopScanning` calls.
`handleScanResult` mutates nothing, so it contributes no step. -/
inductive Reachable : ScanState → Prop where
  | init : Reachable ⟨false, false, false⟩
  | start (s : ScanState) (o : StartOutcome) :
      Reachable s → Reachable (startScanning s o).1
  | stop (s : ScanState) : Reachable s → Reachable (stopScanning s)

/-- States reachable when every `startScanning` call succeeds (no
propagated start failure). -/
inductive ReachableOk : ScanState → Prop where
  | init : ReachableOk ⟨false, false, false⟩
  | start (s : ScanState) (o : StartOutcome) :
      o ≠ StartOutcome.startFailed →
      ReachableOk s → ReachableOk (startScanning s o).1
  | stop (s : ScanState) : ReachableOk s → ReachableOk (stopScanning s)

/-! ## scanImageFile of src/frontend/js/scanner.js

The class in scanner.js holds only the two callback fields; the method
body assigns to none of them. The environment outcome of the
read-file/load-image/decode pipeline is passed as a parameter. -/

/-- Instance state of the frontend `BarcodeScanner` class. -/
structure FrontendScanner where
  onScanSuccess : Bool
  onScanError : Bool
deriving DecidableEq

/-- Outcome of the file-read → image-load → single-shot-decode pipeline. -/
inductive ImageScanEvent where
  /-- `FileReader.onerror` fires. -/
  | readerError
  /-- `img.onerror` fires. -/
  | imageLoadError
  /-- `decodeFromImageElement` throws (no symbol found or decode failure). -/
  | decodeError
  /-- decoding succeeded with the given text. -/
  | decodedText (t : String)
deriving DecidableEq

/-- Rejection message of the `reader.onerror` path. -/
def fileReadFailedMsg : String := "ファイルの読み込みに失敗しました"

/-- Rejection message of the `img.onerror` path. -/
def imageLoadFailedMsg : String := "画像の読み込みに失敗しました"

/-- Rejection message of the ZXing decode-failure path. -/
def barcodeReadFailedMsg : String := "画像からバーコードを読み取れませんでした"

/-- Rejection message when decoded text yields no valid ISBN. -/
def noValidIsbnMsg : String := "有効なISBNバーコードが見つかりませんでした"

/-- `scanImageFile(file)`: resolves with the extracted ISBN exactly when
decoding succeeded and `extractISBN` accepts the text; otherwise rejects
with the path's message. The session state is returned untouched. -/
def scanImageFile (s : FrontendScanner) (ev : ImageScanEvent) :
    FrontendScanner × Except String String :=
  match ev with
  | .readerError => (s, .error fileReadFailedMsg)
  | .imageLoadError => (s, .error imageLoadFailedMsg)
  | .decodeError => (s, .error barcodeReadFailedMsg)
  | .decodedText t =>
      match extractISBN t with
      | some isbn => (s, .ok isbn)
      | none => (s, .error noValidIsbnMsg)

/-! ## Helper lemmas -/

/-- The regex `^97[89]\d{10}$` accepts exactly the 13-digit strings whose
first three characters are "978" or "979". -/
theorem isBookland13_eq_claim (l : List Char) :
    isBookland13 l = bookland13Claim l := by
  rcases l with _ | ⟨a, l⟩
  · rfl
  rcases l with _ | ⟨b, l⟩
  · rfl
  rcases l with _ | ⟨c, rest⟩
  · rfl
  rw [Bool.eq_iff_iff]
  have ht : List.take 3 (a :: b :: c :: rest) = [a, b, c] := rfl
  simp only [isBookland13, bookland13Claim, ht, Bool.and_eq_true,
    Bool.or_eq_true, beq_iff_eq, decide_eq_true_eq, List.all_eq_true,
    List.all_cons, List.length_cons, List.cons.injEq, and_true]
  constructor
  · rintro ⟨⟨⟨⟨rfl, rfl⟩, hc⟩, hlen⟩, hall⟩
    have hcd : c.isDigit = true := by
      rcases hc with rfl | rfl <;> decide
    refine ⟨⟨by omega, by decide, by decide, hcd, hall⟩, ?_⟩
    rcases hc with rfl | rfl
    · exact Or.inl ⟨rfl, rfl, rfl⟩
    · exact Or.inr ⟨rfl, rfl, rfl⟩
  · rintro ⟨⟨hlen, _, _, _, hall⟩, h3 | h3⟩ <;>
      rcases h3 with ⟨rfl, rfl, rfl⟩
    · exact ⟨⟨⟨⟨rfl, rfl⟩, Or.inl rfl⟩, by omega⟩, hall⟩
    · exact ⟨⟨⟨⟨rfl, rfl⟩, Or.inr rfl⟩, by omega⟩, hall⟩

/-- `stopScanning` always lands in the fully cleared state. -/
theorem stopScanning_eq (s : ScanState) :
    stopScanning s = ⟨false, false, false⟩ := by
  unfold stopScanning
  rcases s with ⟨i, c, v⟩
  cases c <;> cases v <;> rfl

/-- A check digit below ten prints as a decimal digit character. -/
theorem digitChar_isDigit {k : Nat} (hk : k < 10) :
    (digitChar k).isDigit = true := by
  interval_cases k <;> decide

/-- Printing a digit below ten and reading it back is the identity. -/
theorem digitVal_digitChar {k : Nat} (hk : k < 10) :
    digitVal (digitChar k) = k := by
  interval_cases k <;> decide

/-- Indexing one past a list retrieves the appended element. -/
theorem getD_append_singleton (l : List Char) (c d : Char) :
    (l ++ [c]).getD l.length d = c := by
  induction l with
  | nil => rfl
  | cons a t ih => simp [ih]

/-- The index-carrying checksum loop equals the declarative sum over the
index-annotated list. -/
theorem ean13Sum_eq_enumFrom (l : List Char) (i : Nat) :
    ean13Sum l i =
      ((l.enumFrom i).map
        (fun p => (if p.1 % 2 = 0 then 1 else 3) * digitVal p.2)).sum := by
  induction l generalizing i with
  | nil => rfl
  | cons c rest ih =>
      simp only [ean13Sum, List.enumFrom_cons, List.map_cons, List.sum_cons, ih]
      by_cases h : i % 2 = 0
      · simp [h]
      · simp [h]
        ring

/-- The index-carrying ISBN-10 weighted sum equals the declarative sum
over the index-annotated list. -/
theorem isbn10Sum_eq_enumFrom (l : List Char) (i : Nat) :
    isbn10Sum l i =
      ((l.enumFrom i).map (fun p => digitVal p.2 * (10 - p.1))).sum := by
  induction l generalizing i with
  | nil => rfl
  | cons c rest ih =>
      simp [isbn10Sum, List.enumFrom_cons, List.map_cons, List.sum_cons, ih]

/-- Single-character `parseInt` succeeds exactly on digits, with the digit
value as result. -/
theorem parseDigit_eq_some (c : Char) (n : Nat) :
    parseDigit c = some n ↔ (c.isDigit = true ∧ digitVal c = n) := by
  by_cases hc : c.isDigit <;> simp [parseDigit, hc]

/-! ## Claim theorems -/

/-- C1: `extractISBN` strips only hyphens and whitespace and then
classifies: a cleaned string of exactly 13 digits beginning with "978" or
"979" is returned unchanged (no checksum validation, so a bookland string
with an invalid check digit is accepted); a cleaned string of 9 digits
followed by a digit or uppercase "X" is converted via `convertISBN10to13`;
every other string (including "980123456789", "123", "abcdefghij" and the
empty string) yields `none`. -/
theorem c1_extract_spec (text : String) :
    extractISBN text =
      (if bookland13Claim (cleanText text).data then some (cleanText text)
       else if isbn10Shape (cleanText text).data then
         some (convertISBN10to13 (cleanText text))
       else none) ∧
    extractISBN "9784061313360" = some "9784061313360" ∧
    validateISBN13 "9784061313360" = false ∧
    extractISBN "980123456789" = none ∧
    extractISBN "123" = none ∧
    extractISBN "abcdefghij" = none ∧
    extractISBN "" = none := by
  refine ⟨?_, by decide, by decide, by decide, by decide, by decide, by decide⟩
  have h3 : (allDigits13 (cleanText text).data &&
      ((cleanText text).data.take 3 == ['9', '7', '8'] ||
        (cleanText text).data.take 3 == ['9', '7', '9'])) =
      bookland13Claim (cleanText text).data := rfl
  by_cases h1 : bookland13Claim (cleanText text).data
  · simp [extractISBN, isBookland13_eq_claim, h1]
  · by_cases h2 : isbn10Shape (cleanText text).data <;>
      simp [extractISBN, isBookland13_eq_claim, h1, h2, h3]

/-- C2: on every ISBN-10-shaped string, `convertISBN10to13` returns a
13-character string that starts with "978", whose characters 3..11 are the
first nine digits of the input, whose last character is the EAN-13 check
digit `(10 - sum % 10) % 10` over the twelve prefix digits (weight 1 at
even 0-based index, 3 at odd), and whose result `validateISBN13` accepts. -/
theorem c2_convert_valid (x : String) (h : isbn10Shape x.data = true) :
    (convertISBN10to13 x).data.length = 13 ∧
    (convertISBN10to13 x).data.take 3 = ['9', '7', '8'] ∧
    ((convertISBN10to13 x).data.drop 3).take 9 = x.data.take 9 ∧
    (convertISBN10to13 x).data.getD 12 ' ' =
      digitChar (ean13Check ('9' :: '7' :: '8' :: x.data.take 9)) ∧
    validateISBN13 (convertISBN10to13 x) = true := by
  simp only [isbn10Shape, Bool.and_eq_true, decide_eq_true_eq,
    List.all_eq_true] at h
  obtain ⟨⟨hlen10, hall9⟩, _⟩ := h
  set d := x.data.take 9 with hd
  have hdlen : d.length = 9 := by
    rw [hd, List.length_take, hlen10]
    decide
  set body : List Char := '9' :: '7' :: '8' :: d with hbody
  have hblen : body.length = 12 := by simp [hbody, hdlen]
  set k := ean13Check body with hk
  have hk10 : k < 10 := Nat.mod_lt _ (by norm_num)
  have hdata : (convertISBN10to13 x).data = body ++ [digitChar k] := rfl
  have htake : (body ++ [digitChar k]).take 12 = body := by
    rw [show (12 : Nat) = body.length from hblen.symm]
    exact List.take_left body [digitChar k]
  have hgetD : (body ++ [digitChar k]).getD 12 ' ' = digitChar k := by
    rw [show (12 : Nat) = body.length from hblen.symm]
    exact getD_append_singleton body (digitChar k) ' '
  refine ⟨?_, ?_, ?_, ?_, ?_⟩
  · simp [hdata, hblen]
  · rw [hdata]; rfl
  · rw [hdata]
    show (d ++ [digitChar k]).take 9 = d
    rw [show (9 : Nat) = d.length from hdlen.symm]
    exact List.take_left d [digitChar k]
  · rw [hdata, hgetD]
  · rw [validateISBN13]
    simp only [hdata, htake, hgetD]
    have hball : ∀ c ∈ body, c.isDigit = true := by
      intro c hc
      rw [hbody] at hc
      rcases List.mem_cons.mp hc with rfl | hc
      · decide
      rcases List.mem_cons.mp hc with rfl | hc
      · decide
      rcases List.mem_cons.mp hc with rfl | hc
      · decide
      exact hall9 c hc
    have hall : (body ++ [digitChar k]).all Char.isDigit = true := by
      rw [List.all_eq_true]
      intro c hc
      rcases List.mem_append.mp hc with hm | hm
      · exact hball c hm
      · have hck : c = digitChar k := by simpa using hm
        rw [hck]
        exact digitChar_isDigit hk10
    simp [allDigits13, hblen, hall, digitVal_digitChar hk10, hdata]

/-- C2 witness: the theorem applied to the concrete input "4123456789". -/
theorem c2_convert_valid_witness :
    isbn10Shape ("4123456789".data) = true ∧
    validateISBN13 (convertISBN10to13 "4123456789") = true :=
  ⟨by decide, (c2_convert_valid "4123456789" (by decide)).2.2.2.2⟩

/-- C3: `validateISBN13` accepts a string exactly when it is 13 digits
whose digit 12 equals the check digit recomputed over digits 0–11 with the
EAN-13 weighting; in particular it accepts "9784061313361" and rejects
"9784061313360". -/
theorem c3_validate13_spec :
    (∀ s : String, validateISBN13 s = true ↔ validate13Claim s) ∧
    validateISBN13 "9784061313361" = true ∧
    validateISBN13 "9784061313360" = false := by
  refine ⟨fun s => ?_, by decide, by decide⟩
  unfold validateISBN13 validate13Claim allDigits13 ean13Check
  simp only [ean13Sum_eq_enumFrom, Bool.and_eq_true, decide_eq_true_eq,
    List.all_eq_true]
  tauto

/-- C4: `validateISBN10` accepts a string exactly when it is 9 digits
followed by a digit or uppercase "X" and, with
`sum = Σ digit(i) * (10 - i)` over `i = 0..8`, `remainder = sum % 11` and
`expected = 0` if the remainder is 0 else `11 - remainder`, either
`expected = 10` and the last character is "X", or `expected < 10` and the
last character is a digit of value `expected`; in particular it accepts
"123456789X" and rejects "123456789Y". -/
theorem c4_validate10_spec :
    (∀ s : String, validateISBN10 s = true ↔ validate10Claim s) ∧
    validateISBN10 "123456789X" = true ∧
    validateISBN10 "123456789Y" = false := by
  refine ⟨fun s => ?_, by decide, by decide⟩
  by_cases hshape : isbn10Shape s.data = true
  · have hshape' := hshape
    simp only [isbn10Shape, Bool.and_eq_true, decide_eq_true_eq,
      List.all_eq_true, isDigitOrX, Bool.or_eq_true, beq_iff_eq] at hshape'
    obtain ⟨⟨hlen, hall⟩, hlast⟩ := hshape'
    simp only [validateISBN10, validate10Claim, hshape, if_true,
      isbn10Sum_eq_enumFrom, Bool.or_eq_true, Bool.and_eq_true,
      decide_eq_true_eq, beq_iff_eq, parseDigit_eq_some]
    simp only [hlen, hall, hlast.symm, true_and, and_true]
    tauto
  · have hclaim : ¬ validate10Claim s := by
      rintro ⟨⟨hlen, hall, hlast⟩, _⟩
      exact hshape (by
        simp only [isbn10Shape, Bool.and_eq_true, decide_eq_true_eq,
          List.all_eq_true, isDigitOrX, Bool.or_eq_true, beq_iff_eq]
        exact ⟨⟨hlen, hall⟩, hlast.symm⟩)
    simp [validateISBN10, hshape, hclaim]

/-- C5 counterexample: after `stopScanning` has completed, a decode
callback delivering a non-NotFoundException error still invokes
`onScanError` — the error branch of `handleScanResult` does not consult
`isScanning`, so the claim that both callbacks stay uninvoked is false. -/
theorem c5_counterexample :
    (handleScanResult (stopScanning ⟨true, true, true⟩) ⟨true, true⟩
        (some "9784061313361") (some ⟨some "ChecksumException"⟩)).2 =
      some ⟨some "ChecksumException"⟩ := by decide

/-- C5 amended: a decode callback delivered after `stopScanning` never
invokes `onScanSuccess`; the error dispatch, however, is entirely
independent of the session state, so `onScanError` fires exactly as it
would in any other state. -/
theorem c5_amended_stop_suppresses_success (s : ScanState) (cb : Callbacks)
    (result : Option String) (error : Option JsError) :
    (handleScanResult (stopScanning s) cb result error).1 = none ∧
    (∀ s' : ScanState,
      (handleScanResult (stopScanning s) cb result error).2 =
        (handleScanResult s' cb result error).2) := by
  constructor
  · rcases result with _ | t
    · rfl
    · simp [handleScanResult, stopScanning_eq]
  · intro s'
    rfl

/-- C6 counterexample: the state reached by a single failing
`startScanning` from the initial state has `isScanning = false` but the
decoder handle still set (the catch block clears only `isScanning`), so
the claimed invariant fails on a reachable state. -/
theorem c6_counterexample :
    Reachable ⟨false, true, false⟩ ∧
    (ScanState.mk false true false).isScanning = false ∧
    (ScanState.mk false true false).codeReader = true := by
  refine ⟨?_, rfl, rfl⟩
  exact Reachable.start _ StartOutcome.startFailed Reachable.init

/-- C6 amended: in every state reachable by sequences of `startScanning`
and `stopScanning` in which no start fails, `isScanning = false` implies
both the decoder handle and the media stream handle are unset; and
`stopScanning` always lands in a state with both handles unset. (After a
failing start the decoder handle remains set, see the counterexample.) -/
theorem c6_amended_invariant :
    (∀ s : ScanState, ReachableOk s → s.isScanning = false →
      s.codeReader = false ∧ s.videoSrcObject = false) ∧
    (∀ s : ScanState, (stopScanning s).isScanning = false ∧
      (stopScanning s).codeReader = false ∧
      (stopScanning s).videoSrcObject = false) := by
  constructor
  · intro s hreach
    induction hreach with
    | init => intro _; exact ⟨rfl, rfl⟩
    | start s o ho _ _ =>
        cases o with
        | devicesOk => intro h; simp [startScanning] at h
        | enumFallback => intro h; simp [startScanning] at h
        | startFailed => exact absurd rfl ho
    | stop s _ _ => intro _; simp [stopScanning_eq]
  · intro s; simp [stopScanning_eq]

/-- C6 witness: the amended invariant applied to the initial state. -/
theorem c6_amended_witness :
    (ScanState.mk false false false).codeReader = false ∧
    (ScanState.mk false false false).videoSrcObject = false :=
  c6_amended_invariant.1 ⟨false, false, false⟩ ReachableOk.init rfl

/-- C7: for a decode callback delivered with an error while the session is
active and `onScanError` is registered, the callback is suppressed exactly
when the error's name is "NotFoundException"; every other error (including
one with a missing or empty name) is passed to `onScanError`. -/
theorem c7_error_filter (s : ScanState) (cb : Callbacks) (e : JsError)
    (_hs : s.isScanning = true) (hcb : cb.onScanError = true) :
    (handleScanResult s cb none (some e)).2 =
      (if e.name = some "NotFoundException" then none else some e) := by
  have hd : dispatchError e = !(e.name == some "NotFoundException") := by
    rcases e with ⟨_ | n⟩
    · rfl
    · by_cases hn : n = ""
      · subst hn; decide
      · simp [dispatchError, jsNameFalsy, hn]
  simp only [handleScanResult, hcb, if_true, hd]
  by_cases hne : e.name = some "NotFoundException" <;> simp [hne]

/-- C7 witness: the theorem applied to the active state with an error
named "NotFoundException" (which is suppressed). -/
theorem c7_error_filter_witness :
    (ScanState.mk true true true).isScanning = true ∧
    (Callbacks.mk true true).onScanError = true ∧
    (handleScanResult ⟨true, true, true⟩ ⟨true, true⟩ none
        (some ⟨some "NotFoundException"⟩)).2 =
      (if (JsError.mk (some "NotFoundException")).name =
          some "NotFoundException"
       then none else some ⟨some "NotFoundException"⟩) :=
  ⟨rfl, rfl, c7_error_filter ⟨true, true, true⟩ ⟨true, true⟩
    ⟨some "NotFoundException"⟩ rfl rfl⟩

/-- C8: `scanImageFile` never mutates the scanner instance, resolves with
an identifier exactly when the pipeline decoded text that `extractISBN`
accepts, rejects each of the four failure paths (file unreadable, image
undecodable, decode failure, decoded text not a valid ISBN) with its own
message, and the four rejection messages are pairwise distinct. -/
theorem c8_scanImageFile_spec (s : FrontendScanner) (ev : ImageScanEvent) :
    (scanImageFile s ev).1 = s ∧
    (∀ isbn : String, (scanImageFile s ev).2 = Except.ok isbn ↔
      ∃ t, ev = ImageScanEvent.decodedText t ∧ extractISBN t = some isbn) ∧
    (∀ t : String, (scanImageFile s (ImageScanEvent.decodedText t)).2 =
      (extractISBN t).elim (Except.error noValidIsbnMsg) Except.ok) ∧
    (scanImageFile s ImageScanEvent.readerError).2 =
      Except.error fileReadFailedMsg ∧
    (scanImageFile s ImageScanEvent.imageLoadError).2 =
      Except.error imageLoadFailedMsg ∧
    (scanImageFile s ImageScanEvent.decodeError).2 =
      Except.error barcodeReadFailedMsg ∧
    fileReadFailedMsg ≠ imageLoadFailedMsg ∧
    fileReadFailedMsg ≠ barcodeReadFailedMsg ∧
    fileReadFailedMsg ≠ noValidIsbnMsg ∧
    imageLoadFailedMsg ≠ barcodeReadFailedMsg ∧
    imageLoadFailedMsg ≠ noValidIsbnMsg ∧
    barcodeReadFailedMsg ≠ noValidIsbnMsg := by
  refine ⟨?_, ?_, ?_, rfl, rfl, rfl,
    by decide, by decide, by decide, by decide, by decide, by decide⟩
  · cases ev with
    | decodedText t => cases h : extractISBN t <;> simp [scanImageFile, h]
    | readerError => rfl
    | imageLoadError => rfl
    | decodeError => rfl
  · intro isbn
    cases ev with
    | decodedText t => cases h : extractISBN t <;> simp [scanImageFile, h]
    | readerError => simp [scanImageFile]
    | imageLoadError => simp [scanImageFile]
    | decodeError => simp [scanImageFile]
  · intro t
    cases h : extractISBN t <;> simp [scanImageFile, h]

/-- C9 counterexample: from a reachable active session, a second
`startScanning` with a successful outcome does not reject — the method
performs no is-active check, so the claimed fail-fast behavior is false. -/
theorem c9_counterexample :
    Reachable (startScanning ⟨false, false, false⟩ StartOutcome.devicesOk).1 ∧
    ((startScanning ⟨false, false, false⟩
        StartOutcome.devicesOk).1).isScanning = true ∧
    (startScanning (startScanning ⟨false, false, false⟩
        StartOutcome.devicesOk).1 StartOutcome.devicesOk).2 = false :=
  ⟨Reachable.start _ _ Reachable.init, rfl, rfl⟩

/-- C9 amended: `startScanning` never consults `isScanning`: its result is
identical whether or not a session is already active, so a re-entrant
start silently proceeds with a fresh acquisition and, on a successful
outcome, resolves without any state error. -/
theorem c9_amended_no_guard (s : ScanState) (o : StartOutcome) :
    startScanning s o = startScanning { s with isScanning := false } o ∧
    (startScanning s StartOutcome.devicesOk).2 = false := by
  cases o <;> exact ⟨rfl, rfl⟩

/-- C10: the four codec functions of the frontend scanner agree
extensionally with both duplicated scanner variants of part_001, and the
BookAPI converter of part_003 agrees with the frontend converter, on every
input string. -/
theorem c10_duplicates_agree (s : String) :
    extractISBNQuagga s = extractISBN s ∧
    extractISBNZXing s = extractISBN s ∧
    convertISBN10to13Quagga s = convertISBN10to13 s ∧
    convertISBN10to13ZXing s = convertISBN10to13 s ∧
    validateISBN13Quagga s = validateISBN13 s ∧
    validateISBN13ZXing s = validateISBN13 s ∧
    validateISBN10Quagga s = validateISBN10 s ∧
    validateISBN10ZXing s = validateISBN10 s ∧
    convertISBN10to13BookAPI s = convertISBN10to13 s :=
  ⟨rfl, rfl, rfl, rfl, rfl, rfl, rfl, rfl, rfl⟩
